import Mathlib

/-!
Verification of the IntelligensiDeploy deployment orchestrator against its
specification.  The Python modules `core/state_machine.py`,
`deploy/workflow.py`, `infra/lambda_api.py` and `presets/loader.py` are
shallowly embedded below: pure logic becomes Lean functions, mutation becomes
explicit state passing, raised exceptions become `Except` / explicit error
components, and external effects (subprocess results, HTTP poll results, the
process environment) become parameters of the embedded functions.
-/

namespace IntelligensiDeploy

/-- A JSON value, as produced by Python's `json.loads`.  Objects keep their
field order (Python dicts preserve insertion order) and, coming from
`json.loads`, have distinct keys. -/
inductive JValue where
  | jnull : JValue
  | jbool : Bool → JValue
  | jnum : Int → JValue
  | jstr : String → JValue
  | jarr : List JValue → JValue
  | jobj : List (String × JValue) → JValue
  deriving Repr

/-- Dictionary lookup (`d[k]` / `d.get(k)` returning the first matching key). -/
def jget : List (String × JValue) → String → Option JValue
  | [], _ => none
  | (k, v) :: rest, key => if k = key then some v else jget rest key

/-- Association-list lookup with a default, embedding Python's
`dict.get(key, default)` for the string-keyed dictionaries the workflow uses. -/
def lookupD {α : Type} : List (String × α) → String → α → α
  | [], _, d => d
  | (k, v) :: rest, key, d => if k = key then v else lookupD rest key d

/-- Remove a key from an association list (`dict.pop(key, None)`). -/
def removeKey {α : Type} : List (String × α) → String → List (String × α)
  | [], _ => []
  | (k, v) :: rest, key => if k = key then removeKey rest key else (k, v) :: removeKey rest key

/-- Membership of a key in an association list (`key in dict`). -/
def hasKey {α : Type} (l : List (String × α)) (key : String) : Bool :=
  l.any (fun kv => kv.1 = key)

/-! ## `core/state_machine.py`: data model -/

/-- `TransitionRecord` (dataclass): captures a single state transition.  The
`context` dict is kept as a JSON value; the dataclass does not constrain it. -/
structure TransitionRecord where
  timestamp : String
  from_state : Option String
  to_state : String
  context : JValue
  deriving Repr

/-- The in-memory fields of `StateMachine` that the workflow logic reads and
writes (`initial_state`, `current_state`, `allowed_transitions`, `history`).
The transition table is a string-keyed dict of lists of state names. -/
structure StateMachine where
  initial_state : String
  current_state : String
  allowed_transitions : List (String × List String)
  history : List TransitionRecord
  deriving Repr

/-- `StateMachine._default_transitions`: the default transition map for
deployment workflows, in the source's insertion order. -/
def default_transitions : List (String × List String) :=
  [ ("idle", ["planning", "provisioning"]),
    ("planning", ["provisioning", "error"]),
    ("provisioning", ["building", "error"]),
    ("building", ["deploying", "error"]),
    ("deploying", ["verifying", "running", "error"]),
    ("verifying", ["running", "error"]),
    ("running", ["updating", "shutdown", "error"]),
    ("updating", ["verifying", "running", "error"]),
    ("shutdown", ["idle"]),
    ("error", ["idle"]) ]

/-- The known workflow states: the keys of the default transition table. -/
def knownStates : List String := default_transitions.map (fun kv => kv.1)

/-- `StateMachine.__init__` before `_load_state` runs: Python's
`allowed_transitions or self._default_transitions()` falls back to the default
table when the argument is `None` or an empty dict (falsy). -/
def initMachine (initial_state : String)
    (allowed_transitions : Option (List (String × List String))) : StateMachine :=
  { initial_state := initial_state
    current_state := initial_state
    allowed_transitions :=
      match allowed_transitions with
      | none => default_transitions
      | some t => if t = [] then default_transitions else t
    history := [] }

/-- Exceptions that can escape `StateMachine.transition`. -/
inductive PyErr where
  | stateTransition (current_state target_state : String)
  | hookErr (e : String)
  deriving Repr, DecidableEq

/-- An event hook (`event_hook` callback): receives the event kind and the
transition record (Python passes `record.__dict__`), and either returns
normally (`none`) or raises an exception carried as `some e`. -/
def Hook : Type := String → TransitionRecord → Option String

/-- The transition table entry for the machine's current state
(`self.allowed_transitions.get(self.current_state, ())`). -/
def allowedOf (sm : StateMachine) : List String :=
  lookupD sm.allowed_transitions sm.current_state []

/-- `StateMachine.transition(target_state, context)`.  The timestamp is the
nondeterministic `datetime.utcnow()` reading, passed as a parameter.  The
result pairs the machine's fields after the call with the exception that
propagates out of `transition`, if any: Python mutates `self` in place, so
mutations that happened before a raised exception are visible in the first
component.  On an invalid target a `StateTransitionError` is raised before any
mutation; on a valid target the record is appended, the state is updated and
persisted, and only then is the event hook invoked — an exception raised by
the hook propagates after the mutations are already in place. -/
def transitionRun (sm : StateMachine) (hook : Option Hook)
    (target_state : String) (ts : String) (ctx : JValue) :
    StateMachine × Option PyErr :=
  let allowed := allowedOf sm
  if target_state ∈ allowed then
    let record : TransitionRecord :=
      { timestamp := ts
        from_state := some sm.current_state
        to_state := target_state
        context := ctx }
    let sm' := { sm with
      current_state := target_state
      history := sm.history ++ [record] }
    match hook with
    | none => (sm', none)
    | some h =>
      match h "transition" record with
      | none => (sm', none)
      | some e => (sm', some (.hookErr e))
  else
    (sm, some (.stateTransition sm.current_state target_state))

/-! ## `core/state_machine.py`: persistence (`_persist_state` / `_load_state`)

`_load_state` reads back whatever JSON is in the state file and assigns the
fields one by one with no type checking, so the loaded fields are modelled at
the JSON level (`RawLoad`).  `_persist_state` serialises the typed in-memory
machine to the exact JSON payload the source builds. -/

/-- A transition record as reconstructed by `TransitionRecord(**record)` from a
loaded JSON object: the dataclass checks only the keyword names, not the value
types, so every field is an arbitrary JSON value (`context` defaults to the
empty dict). -/
structure RawRecord where
  timestamp : JValue
  from_state : JValue
  to_state : JValue
  context : JValue
  deriving Repr

/-- The four persisted `StateMachine` fields at the JSON level, as they stand
after `_load_state` has run. -/
structure RawLoad where
  initial_state : JValue
  current_state : JValue
  allowed_transitions : JValue
  history : List RawRecord
  deriving Repr

/-- `TransitionRecord(**record)`: succeeds iff `record` is a mapping whose keys
are among `timestamp`, `from_state`, `to_state`, `context` and include the
three without dataclass defaults; otherwise Python raises `TypeError`.  Value
types are not checked. -/
def parseRecord (v : JValue) : Option RawRecord :=
  match v with
  | .jobj fields =>
    if fields.all (fun kv =>
        kv.1 = "timestamp" ∨ kv.1 = "from_state" ∨ kv.1 = "to_state" ∨ kv.1 = "context") then
      match jget fields "timestamp", jget fields "from_state", jget fields "to_state" with
      | some ts, some fs, some tos =>
        some { timestamp := ts, from_state := fs, to_state := tos,
               context := (jget fields "context").getD (.jobj []) }
      | _, _, _ => none
    else none
  | _ => none

/-- The list comprehension `[TransitionRecord(**record) for record in records]`:
all records parse, or the comprehension raises `TypeError` (`none`). -/
def parseRecords : List JValue → Option (List RawRecord)
  | [] => some []
  | v :: rest =>
    match parseRecord v, parseRecords rest with
    | some r, some rs => some (r :: rs)
    | _, _ => none

/-- Outcome of running `_load_state` inside `StateMachine.__init__`. -/
inductive LoadOutcome where
  | ok (r : RawLoad)
  | raised (e : String)
  deriving Repr

/-- The state file contents as `_load_state` observes them: `none` when the
file does not exist, `some (.error ())` when reading or `json.loads` fails
(`OSError` / `json.JSONDecodeError`, both caught), `some (.ok v)` when the
file decodes to the JSON value `v`. -/
def StoreInput : Type := Option (Except Unit JValue)

/-- `StateMachine._load_state`, run over the defaults `d` the constructor set
up just before calling it (in `__init__` the default `history` is always
`[]`).  A missing file or a read/decode failure leaves the defaults in place.
A decoded JSON object overwrites `initial_state`, `current_state` and
`allowed_transitions` with whatever the file holds (no validation), then
rebuilds the history; a `TypeError` while rebuilding the history is caught,
which keeps the default history but retains the three already-overwritten
fields.  A decoded value that is not an object raises `AttributeError` on
`data.get`, which no handler catches. -/
def loadRaw (input : StoreInput) (d : RawLoad) : LoadOutcome :=
  match input with
  | none => .ok d
  | some (.error _) => .ok d
  | some (.ok (.jobj fields)) =>
    let r : RawLoad :=
      { initial_state := (jget fields "initial_state").getD d.initial_state
        current_state := (jget fields "current_state").getD d.current_state
        allowed_transitions := (jget fields "allowed_transitions").getD d.allowed_transitions
        history := d.history }
    match (jget fields "history").getD (.jarr []) with
    | .jarr items =>
      match parseRecords items with
      | some hs => .ok { r with history := hs }
      | none => .ok r
    | _ => .ok r
  | some (.ok _) => .raised "AttributeError"

/-- JSON encoding of an `Optional[str]` field. -/
def encodeOptStr : Option String → JValue
  | none => .jnull
  | some s => .jstr s

/-- `record.__dict__` as serialised by `json.dumps`: the dataclass fields in
declaration order. -/
def encodeRecord (r : TransitionRecord) : JValue :=
  .jobj [ ("timestamp", .jstr r.timestamp),
          ("from_state", encodeOptStr r.from_state),
          ("to_state", .jstr r.to_state),
          ("context", r.context) ]

/-- JSON encoding of the transition table (tuples become JSON arrays). -/
def encodeTable (t : List (String × List String)) : JValue :=
  .jobj (t.map (fun kv => (kv.1, .jarr (kv.2.map .jstr))))

/-- `StateMachine._persist_state`: the exact JSON payload written to the state
file. -/
def persistState (sm : StateMachine) : JValue :=
  .jobj [ ("initial_state", .jstr sm.initial_state),
          ("current_state", .jstr sm.current_state),
          ("allowed_transitions", encodeTable sm.allowed_transitions),
          ("history", .jarr (sm.history.map encodeRecord)) ]

/-- The raw (JSON-level) view of a typed machine's persisted fields. -/
def rawRecordOf (r : TransitionRecord) : RawRecord :=
  { timestamp := .jstr r.timestamp
    from_state := encodeOptStr r.from_state
    to_state := .jstr r.to_state
    context := r.context }

/-- The raw view of a typed machine, i.e. what a faithful reload of its
persisted payload must reconstruct. -/
def rawOfMachine (sm : StateMachine) : RawLoad :=
  { initial_state := .jstr sm.initial_state
    current_state := .jstr sm.current_state
    allowed_transitions := encodeTable sm.allowed_transitions
    history := sm.history.map rawRecordOf }

/-! ## `infra/lambda_api.py` -/

/-- `Instance` (dataclass): the provider's view of a GPU instance. -/
structure Instance where
  id : String
  ip : Option String
  status : String
  deriving Repr, DecidableEq

/-- Python truthiness of `instance.ip`: `None` and the empty string are falsy. -/
def ipTruthy (inst : Instance) : Bool :=
  match inst.ip with
  | none => false
  | some s => !s.isEmpty

/-- Result of `LambdaClient.wait_for_instance`.  `exhausted` is a model
artifact for a finite poll sequence that never triggers either exit: the real
loop would simply keep polling. -/
inductive WaitResult where
  | found (inst : Instance)
  | timedOut (msg : String)
  | exhausted
  deriving Repr, DecidableEq

/-- The timeout message built by `wait_for_instance`. -/
def timeoutMsg (instId : String) (last_status : String) : String :=
  "Timed out waiting for instance " ++ instId ++ " (last status: " ++ last_status ++ ")"

/-- The polling loop of `LambdaClient.wait_for_instance`.  Each list entry is
one successful `get_instance` poll paired with the wall-clock seconds elapsed
(`time.time() - start`) when the loop reaches the timeout check after that
poll.  `last_status` is updated from the poll before either check, so the
timeout message always names the status of the poll observed last; the
accumulator mirrors the source's `last_status` variable (initially
`"pending"`, overwritten before any use). -/
def waitLoop (instId : String) (timeout : Nat) :
    List (Instance × Nat) → String → WaitResult
  | [], _ => .exhausted
  | (inst, t) :: rest, _ =>
    if ipTruthy inst then .found inst
    else if timeout < t then .timedOut (timeoutMsg instId inst.status)
    else waitLoop instId timeout rest inst.status

/-- `LambdaClient.wait_for_instance(instance_id, timeout)` over a given poll
sequence. -/
def wait_for_instance (instId : String) (timeout : Nat)
    (polls : List (Instance × Nat)) : WaitResult :=
  waitLoop instId timeout polls "pending"

/-! ## `deploy/workflow.py`: `_ssh` retry loop -/

/-- The observable fields of a `subprocess.run` result. -/
structure ProcResult where
  returncode : Int
  stdout : String
  stderr : String
  deriving Repr, DecidableEq

/-- One externally visible step of the `_ssh` loop: running the ssh subprocess
for attempt number `n`, or `time.sleep(delay)`. -/
inductive SshEvent where
  | run (attempt : Nat)
  | sleepFor (seconds : Nat)
  deriving Repr, DecidableEq

/-- Python's `s1 or s2` on strings: the first when non-empty, else the second. -/
def strOrElse (s1 s2 : String) : String :=
  if s1.isEmpty then s2 else s1

/-- The `DeploymentError` message raised after the `_ssh` loop exhausts its
attempts; `process` still names the last attempt's result there. -/
def sshFailMsg (retries : Nat) (p : ProcResult) : String :=
  "SSH failed after " ++ toString retries ++ " attempts: " ++ strOrElse p.stderr p.stdout

/-- The body of `for attempt in range(1, retries + 1)` in `_ssh`, with
`remaining` iterations left and `attempt` the current attempt number.
`results n` is the subprocess outcome of the n-th attempt.  Each failed
attempt prints and then sleeps `delay` seconds — including the final one,
after which the loop ends and the error is raised.  (With `retries = 0` the
source would hit an unbound `process` at the raise; the model is only
instantiated with `retries ≥ 1`.) -/
def sshGo (results : Nat → ProcResult) (retries delay : Nat) :
    Nat → Nat → List SshEvent × Except String Unit
  | 0, _ => ([], .error (sshFailMsg retries (results retries)))
  | remaining + 1, attempt =>
    let p := results attempt
    if p.returncode = 0 then ([.run attempt], .ok ())
    else
      let r := sshGo results retries delay remaining (attempt + 1)
      (.run attempt :: .sleepFor delay :: r.1, r.2)

/-- `_ssh(...)`: the sequence of subprocess runs and sleeps it performs, and
whether it returns normally or raises a `DeploymentError`. -/
def ssh_run (results : Nat → ProcResult) (retries delay : Nat) :
    List SshEvent × Except String Unit :=
  sshGo results retries delay retries 1

/-! ## `deploy/workflow.py` and `presets/loader.py`: presets, env flags,
bootstrap, deploy, shutdown

The process environment enters through an `expand` parameter standing for
`_expand` (`os.path.expanduser(os.path.expandvars(value))` under the current
environment), and the network/subprocess world through `ssh`, `createRes`,
`waitRes`, `bootRes` and `deleteRes` parameters. -/

/-- Python truthiness of an `Optional[str]`: `None` and `""` are falsy. -/
def optStrTruthy : Option String → Bool
  | none => false
  | some s => !s.isEmpty

/-- Option-valued association-list lookup (`dict.get(key)` / `dict[key]`). -/
def lookupOpt {α : Type} : List (String × α) → String → Option α
  | [], _ => none
  | (k, v) :: rest, key => if k = key then some v else lookupOpt rest key

/-- `Preset` (dataclass) — the fields the deploy workflow reads.  `env` keeps
the dict's insertion order; its values are `Option`s because
`_build_env_flags` explicitly guards against `None` entries. -/
structure Preset where
  name : String
  instance_type : String
  docker_image : String
  env : List (String × Option String)
  port : Nat
  health_path : String
  ssh_key_name : Option String
  ssh_private_key_path : Option String
  ssh_username : String
  deriving Repr, DecidableEq

/-- `DeploymentState` (dataclass). -/
structure DeploymentState where
  preset : String
  instance_id : String
  ip : String
  deriving Repr, DecidableEq

/-- Python's `s.startswith(p)`: `p`'s characters are an initial segment of
`s`'s. -/
def pyStartsWith (s p : String) : Bool :=
  p.data.isPrefixOf s.data

/-- Python's `s.endswith(p)`: `p`'s characters are a final segment of `s`'s. -/
def pyEndsWith (s p : String) : Bool :=
  p.data.isSuffixOf s.data

/-- The shape check `expanded.startswith("${") and expanded.endswith("}")`
for a still-unresolved placeholder. -/
def unresolvedShape (s : String) : Bool :=
  pyStartsWith s "$\x7b" && pyEndsWith s "\x7d"

/-- The `DeploymentError` message for an unresolved environment value. -/
def unresolvedMsg (key value : String) : String :=
  "Environment variable " ++ key ++ " was not resolved (value=" ++ value ++ "). " ++
  "Did you forget to export it or load .env.local?"

/-- One `-e KEY='expanded'` docker flag. -/
def envFlag (key expanded : String) : String :=
  "-e " ++ key ++ "=\x27" ++ expanded ++ "\x27"

/-- The loop of `_build_env_flags`: builds the `parts` list, skipping `None`
values and raising on the first expanded value that still looks like an
unresolved `$\x7bVAR\x7d` placeholder. -/
def envFlagParts (expand : String → String) :
    List (String × Option String) → Except String (List String)
  | [] => .ok []
  | (_, none) :: rest => envFlagParts expand rest
  | (key, some value) :: rest =>
    let expanded := expand value
    if unresolvedShape expanded then .error (unresolvedMsg key value)
    else
      match envFlagParts expand rest with
      | .error e => .error e
      | .ok parts => .ok (envFlag key expanded :: parts)

/-- `_build_env_flags(env)`: the space-joined docker `-e` flags, or the
`DeploymentError` it raises. -/
def build_env_flags (expand : String → String)
    (env : List (String × Option String)) : Except String String :=
  match envFlagParts expand env with
  | .error e => .error e
  | .ok parts => .ok (String.intercalate " " parts)

/-- The six remote commands `_bootstrap_remote` issues before it builds the
environment flags: docker removal, apt preparation, GPG key, apt repository,
docker installation, and enabling the docker service. -/
def bootstrapInstallCommands : List String :=
  [ "sudo apt-get remove -y docker docker-engine docker.io containerd runc || true",
    "sudo apt-get update -y && sudo apt-get install -y ca-certificates curl gnupg lsb-release",
    "sudo mkdir -m 0755 -p /etc/apt/keyrings && curl -fsSL https://download.docker.com/linux/ubuntu/gpg | sudo gpg --dearmor -o /etc/apt/keyrings/docker.gpg",
    "echo \"deb [arch=$(dpkg --print-architecture) signed-by=/etc/apt/keyrings/docker.gpg] https://download.docker.com/linux/ubuntu $(lsb_release -cs) stable\" | sudo tee /etc/apt/sources.list.d/docker.list > /dev/null",
    "sudo apt-get update -y && sudo apt-get install -y docker-ce docker-ce-cli containerd.io docker-buildx-plugin docker-compose-plugin",
    "sudo systemctl enable --now docker" ]

/-- The final `docker pull`/`run` command, with the env flags spliced in
(`f-string`: a trailing space only when `env_flags` is non-empty). -/
def dockerRunCommand (preset : Preset) (env_flags : String) : String :=
  "sudo docker pull " ++ preset.docker_image ++
  " && sudo docker rm -f image-server || true && " ++
  "sudo docker run --gpus all -d -p " ++ toString preset.port ++ ":" ++ toString preset.port ++ " " ++
  (if env_flags.isEmpty then "" else env_flags ++ " ") ++
  "--name image-server " ++ preset.docker_image

/-- Run a list of remote commands in order through `_ssh`, stopping at the
first one whose `_ssh` call raises; the trace records every command on which
a remote invocation was made. -/
def runSeq (ssh : String → Except String Unit) :
    List String → List String × Except String Unit
  | [] => ([], .ok ())
  | c :: rest =>
    match ssh c with
    | .error e => ([c], .error e)
    | .ok () =>
      let r := runSeq ssh rest
      (c :: r.1, r.2)

/-- `_bootstrap_remote(preset, state)`: the ordered trace of remote commands
on which `_ssh` was invoked, and the call's outcome.  `ssh c` is the outcome
of `_ssh(state.ip, key_path, preset.ssh_username, c)`.  The environment flags
are only built (and an unresolved placeholder only detected) after the six
installation commands have already run remotely. -/
def bootstrap_remote (ssh : String → Except String Unit)
    (expand : String → String) (preset : Preset) :
    List String × Except String Unit :=
  if !optStrTruthy preset.ssh_private_key_path then
    ([], .error "ssh_private_key_path is required")
  else
    let r := runSeq ssh bootstrapInstallCommands
    match r.2 with
    | .error e => (r.1, .error e)
    | .ok () =>
      match build_env_flags expand preset.env with
      | .error e => (r.1, .error e)
      | .ok env_flags =>
        let rc := dockerRunCommand preset env_flags
        match ssh rc with
        | .error e => (r.1 ++ [rc], .error e)
        | .ok () => (r.1 ++ [rc], .ok ())

/-- Externally visible milestones of `deploy_preset` after an address is
obtained: writing the deployment record to the state file, and running the
remote bootstrap. -/
inductive DeployEvent where
  | persistRecord
  | remoteBootstrap
  deriving Repr, DecidableEq

/-- `deploy_preset(name)` after `_get_preset` succeeded.  `hfToken` is
`os.getenv("HF_TOKEN")`; `states` is the deployment map read from the state
file; `createRes` / `waitRes` are the outcomes of `client.create_instance`
and `client.wait_for_instance(created.id)` (a `LambdaAPIError` from either is
re-raised as a `DeploymentError` with the same message); `bootRes` is the
outcome of `_bootstrap_remote`.  Returns the state map as last written, the
milestone trace, and the call's outcome. -/
def deploy_preset (hfToken : Option String)
    (states : List (String × DeploymentState)) (name : String)
    (createRes waitRes : Except String Instance) (bootRes : Except String Unit) :
    List (String × DeploymentState) × List DeployEvent × Except String DeploymentState :=
  if !optStrTruthy hfToken then
    (states, [], .error "Missing required environment variable: HF_TOKEN")
  else
    match lookupOpt states name with
    | some prior =>
      (states, [], .error ("Preset \x27" ++ name ++ "\x27 already deployed at " ++ prior.ip))
    | none =>
      match createRes with
      | .error e => (states, [], .error e)
      | .ok _created =>
        match waitRes with
        | .error e => (states, [], .error e)
        | .ok instance_ =>
          if !ipTruthy instance_ then
            (states, [], .error "Instance did not return a public IP")
          else
            let ds : DeploymentState :=
              { preset := name, instance_id := instance_.id, ip := instance_.ip.getD "" }
            let states' := states ++ [(name, ds)]
            match bootRes with
            | .error e => (states', [.persistRecord, .remoteBootstrap], .error e)
            | .ok () => (states', [.persistRecord, .remoteBootstrap], .ok ds)

/-- `shutdown_preset(name)` after `_get_preset` succeeded.  `deleteRes` is the
outcome of `client.delete_instance(state.instance_id)`; a `LambdaAPIError`
from it is re-raised as a `DeploymentError` with the same message, and only a
successful delete removes the record and rewrites the state file. -/
def shutdown_preset (deleteRes : Except String Unit)
    (states : List (String × DeploymentState)) (name : String) :
    List (String × DeploymentState) × Except String Unit :=
  match lookupOpt states name with
  | none => (states, .ok ())
  | some _ =>
    match deleteRes with
    | .error e => (states, .error e)
    | .ok () => (removeKey states name, .ok ())

/-! ## Claims -/

/-- C1: `StateMachine.transition(T)` succeeds iff `T` is in the transition
table entry for the current state `S`; on success the current state becomes
`T` and exactly one record with `from_state = S`, `to_state = T` is appended
to the history; on failure (`StateTransitionError`) both the current state
and the history are unchanged. -/
theorem c1_transition_iff_table (sm : StateMachine) (target ts : String) (ctx : JValue) :
    (target ∈ allowedOf sm →
      transitionRun sm none target ts ctx =
        ({ sm with
            current_state := target
            history := sm.history ++
              [{ timestamp := ts, from_state := some sm.current_state,
                 to_state := target, context := ctx }] }, none))
    ∧ (target ∉ allowedOf sm →
      transitionRun sm none target ts ctx =
        (sm, some (.stateTransition sm.current_state target))) := by
  constructor <;> intro h <;> simp [transitionRun, h]

/-- Witness for C1: from `idle`, the allowed target `planning` succeeds and
appends one record, and the disallowed target `bogus` fails leaving the
machine unchanged. -/
theorem c1_transition_iff_table_witness :
    ("planning" ∈ allowedOf (initMachine "idle" none) ∧
      transitionRun (initMachine "idle" none) none "planning" "t0" (.jobj []) =
        ({ initial_state := "idle", current_state := "planning",
           allowed_transitions := default_transitions,
           history := [{ timestamp := "t0", from_state := some "idle",
                         to_state := "planning", context := .jobj [] }] }, none))
    ∧ ("running" ∉ allowedOf (initMachine "idle" none) ∧
      transitionRun (initMachine "idle" none) none "running" "t0" (.jobj []) =
        (initMachine "idle" none, some (.stateTransition "idle" "running"))) :=
  ⟨⟨by decide,
    (c1_transition_iff_table (initMachine "idle" none) "planning" "t0" (.jobj [])).1 (by decide)⟩,
   ⟨by decide,
    (c1_transition_iff_table (initMachine "idle" none) "running" "t0" (.jobj [])).2 (by decide)⟩⟩

/-- C9 counterexample: with an event hook that raises, `transition` on a valid
target does NOT return without raising — the hook's exception propagates out
of the call, refuting the claim at this concrete input. -/
theorem c9_counterexample :
    (transitionRun (initMachine "idle" none) (some (fun _ _ => some "boom"))
        "planning" "t0" (.jobj [])).2 = some (.hookErr "boom") := by
  decide

/-- C9 amended: on a valid target, `transition` updates the state and appends
the record before invoking the event hook, so the completed transition is
retained whatever the callback does; but an exception raised by the callback
propagates out of `transition` rather than being swallowed. -/
theorem c9_hook_error_propagates_after_mutation (sm : StateMachine) (hook : Hook)
    (target ts : String) (ctx : JValue) (h : target ∈ allowedOf sm) :
    transitionRun sm (some hook) target ts ctx =
      ({ sm with
          current_state := target
          history := sm.history ++
            [{ timestamp := ts, from_state := some sm.current_state,
               to_state := target, context := ctx }] },
       (hook "transition"
          { timestamp := ts, from_state := some sm.current_state,
            to_state := target, context := ctx }).map PyErr.hookErr) := by
  simp only [transitionRun, if_pos h]
  cases hook "transition"
      { timestamp := ts, from_state := some sm.current_state,
        to_state := target, context := ctx } <;> rfl

/-- Witness for C9's amended theorem: a raising hook on a valid transition
yields the updated machine together with the propagated hook exception. -/
theorem c9_hook_error_propagates_after_mutation_witness :
    "planning" ∈ allowedOf (initMachine "idle" none) ∧
    transitionRun (initMachine "idle" none) (some (fun _ _ => some "boom"))
        "planning" "t0" (.jobj []) =
      ({ initial_state := "idle", current_state := "planning",
         allowed_transitions := default_transitions,
         history := [{ timestamp := "t0", from_state := some "idle",
                       to_state := "planning", context := .jobj [] }] },
       some (.hookErr "boom")) :=
  ⟨by decide,
   c9_hook_error_propagates_after_mutation (initMachine "idle" none)
     (fun _ _ => some "boom") "planning" "t0" (.jobj []) (by decide)⟩

/-- C7 counterexample: a constructor override whose targets include the
unknown state name `bogus` is installed verbatim — no validation against the
known workflow states happens — and a transition into `bogus` then succeeds,
refuting the claim at this concrete input. -/
theorem c7_counterexample :
    (initMachine "idle" (some [("idle", ["bogus"])])).allowed_transitions
        = [("idle", ["bogus"])]
    ∧ "bogus" ∉ knownStates
    ∧ (transitionRun (initMachine "idle" (some [("idle", ["bogus"])])) none
        "bogus" "t0" (.jobj [])).2 = none := by
  refine ⟨by decide, by decide, by decide⟩

/-- C7 amended: no validation is performed anywhere — any non-empty override
supplied at construction is installed verbatim (an empty or `None` override
falls back to the default table), and `_load_state` likewise installs
whatever JSON value the persisted record holds under `allowed_transitions`. -/
theorem c7_override_installed_unvalidated (i : String)
    (t : List (String × List String)) (v : JValue) (d : RawLoad) (ht : t ≠ []) :
    (initMachine i (some t)).allowed_transitions = t
    ∧ loadRaw (some (.ok (.jobj [("allowed_transitions", v)]))) d =
        .ok { d with allowed_transitions := v, history := [] } := by
  constructor
  · simp [initMachine, ht]
  · rfl

/-- Witness for C7's amended theorem at a concrete unknown-state override and
a concrete loaded JSON table. -/
theorem c7_override_installed_unvalidated_witness :
    ([("idle", ["bogus"])] : List (String × List String)) ≠ []
    ∧ ((initMachine "idle" (some [("idle", ["bogus"])])).allowed_transitions
          = [("idle", ["bogus"])]
      ∧ loadRaw (some (.ok (.jobj [("allowed_transitions", .jstr "junk")])))
            (rawOfMachine (initMachine "idle" none)) =
          .ok { rawOfMachine (initMachine "idle" none) with
                  allowed_transitions := .jstr "junk", history := [] }) :=
  ⟨by decide,
   c7_override_installed_unvalidated "idle" [("idle", ["bogus"])] (.jstr "junk")
     (rawOfMachine (initMachine "idle" none)) (by decide)⟩

/-- A record serialised by `_persist_state` is reconstructed exactly by
`TransitionRecord(**record)` on reload. -/
theorem parseRecords_encode (l : List TransitionRecord) :
    parseRecords (l.map encodeRecord) = some (l.map rawRecordOf) := by
  induction l with
  | nil => rfl
  | cons r rest ih =>
    simp [parseRecords, parseRecord, encodeRecord, rawRecordOf, jget, ih]

/-- C2 counterexample: a state file holding the JSON array `[]` decodes fine
but is not an object, so `_load_state` hits an uncaught `AttributeError` on
`data.get` — construction raises instead of falling back to the defaults,
refuting the claim at this concrete input. -/
theorem c2_counterexample :
    loadRaw (some (.ok (.jarr []))) (rawOfMachine (initMachine "idle" none)) =
      .raised "AttributeError" := rfl

/-- C2 amended: persisting and reloading yields an identical current state
and history length; a missing state file, or one whose read/JSON-decode
fails, leaves the caller-supplied defaults in place without raising.  (A file
that decodes to a non-object JSON value, however, raises an uncaught
`AttributeError`, and an object with a malformed history installs the other
loaded fields while only the history falls back to the default.) -/
theorem c2_persist_roundtrip_and_defaults (sm : StateMachine) (d : RawLoad) :
    loadRaw (some (.ok (persistState sm))) d = .ok (rawOfMachine sm)
    ∧ (rawOfMachine sm).current_state = .jstr sm.current_state
    ∧ (rawOfMachine sm).history.length = sm.history.length
    ∧ loadRaw none d = .ok d
    ∧ loadRaw (some (.error ())) d = .ok d := by
  refine ⟨?_, rfl, by simp [rawOfMachine], rfl, rfl⟩
  simp [loadRaw, persistState, jget, parseRecords_encode, rawOfMachine]

/-- C3: `wait_for_instance` (1) never returns an instance whose `ip` is
absent (`None` or empty); (2) returns the first polled instance carrying an
address, provided every earlier poll lacked one and stayed within the timeout
budget; (3) when a poll lacking an address is observed past the timeout after
polls within budget, it fails with the timeout error naming the last observed
status. -/
theorem c3_wait_for_instance_spec (instId : String) (timeout : Nat) :
    (∀ (polls : List (Instance × Nat)) (inst : Instance),
      wait_for_instance instId timeout polls = .found inst → ipTruthy inst = true)
    ∧ (∀ (pre : List (Instance × Nat)) (inst : Instance) (t : Nat)
        (rest : List (Instance × Nat)),
        (∀ p ∈ pre, ipTruthy p.1 = false ∧ p.2 ≤ timeout) →
        ipTruthy inst = true →
        wait_for_instance instId timeout (pre ++ (inst, t) :: rest) = .found inst)
    ∧ (∀ (pre : List (Instance × Nat)) (inst : Instance) (t : Nat)
        (rest : List (Instance × Nat)),
        (∀ p ∈ pre, ipTruthy p.1 = false ∧ p.2 ≤ timeout) →
        ipTruthy inst = false → timeout < t →
        wait_for_instance instId timeout (pre ++ (inst, t) :: rest) =
          .timedOut (timeoutMsg instId inst.status)) := by
  have skip : ∀ (pre rest : List (Instance × Nat)) (acc : String),
      (∀ p ∈ pre, ipTruthy p.1 = false ∧ p.2 ≤ timeout) →
      waitLoop instId timeout (pre ++ rest) acc =
        waitLoop instId timeout rest (pre.foldl (fun _ p => p.1.status) acc) := by
    intro pre
    induction pre with
    | nil => intro rest acc _; rfl
    | cons p pre ih =>
      intro rest acc h
      obtain ⟨hip, ht⟩ := h p (List.mem_cons_self p pre)
      have : ¬ timeout < p.2 := Nat.not_lt.mpr ht
      simp only [List.cons_append, waitLoop, hip, Bool.false_eq_true, if_false, this,
        List.foldl_cons]
      exact ih rest p.1.status (fun q hq => h q (List.mem_cons_of_mem p hq))
  refine ⟨?_, ?_, ?_⟩
  · intro polls
    unfold wait_for_instance
    generalize "pending" = acc
    induction polls generalizing acc with
    | nil => intro inst h; cases h
    | cons p rest ih =>
      intro inst h
      by_cases hip : ipTruthy p.1 = true
      · simp only [waitLoop, hip, if_true] at h
        cases h; exact hip
      · by_cases htime : timeout < p.2
        · simp only [waitLoop, hip, if_false, htime, if_true] at h
          cases h
        · simp only [waitLoop, hip, if_false, htime, if_true] at h
          exact ih _ inst h
  · intro pre inst t rest h hip
    unfold wait_for_instance
    rw [skip pre ((inst, t) :: rest) "pending" h]
    simp [waitLoop, hip]
  · intro pre inst t rest h hip ht
    unfold wait_for_instance
    rw [skip pre ((inst, t) :: rest) "pending" h]
    simp [waitLoop, hip, ht]

/-- Witness for C3: a poll sequence whose second poll brings the address is
returned, and one that stays addressless past the timeout fails naming the
last status. -/
theorem c3_wait_for_instance_spec_witness :
    ((∀ p ∈ ([({ id := "i-1", ip := none, status := "booting" }, 10)] :
        List (Instance × Nat)), ipTruthy p.1 = false ∧ p.2 ≤ 900)
      ∧ ipTruthy { id := "i-1", ip := some "1.2.3.4", status := "active" } = true
      ∧ wait_for_instance "i-1" 900
          [({ id := "i-1", ip := none, status := "booting" }, 10),
           ({ id := "i-1", ip := some "1.2.3.4", status := "active" }, 20)] =
          .found { id := "i-1", ip := some "1.2.3.4", status := "active" })
    ∧ (wait_for_instance "i-1" 900
          [({ id := "i-1", ip := none, status := "booting" }, 10),
           ({ id := "i-1", ip := some "", status := "unhealthy" }, 901)] =
        .timedOut (timeoutMsg "i-1" "unhealthy")) := by
  refine ⟨⟨by decide, by decide, ?_⟩, ?_⟩
  · exact (c3_wait_for_instance_spec "i-1" 900).2.1
      [({ id := "i-1", ip := none, status := "booting" }, 10)]
      { id := "i-1", ip := some "1.2.3.4", status := "active" } 20 []
      (by decide) (by decide)
  · exact (c3_wait_for_instance_spec "i-1" 900).2.2
      [({ id := "i-1", ip := none, status := "booting" }, 10)]
      { id := "i-1", ip := some "", status := "unhealthy" } 901 []
      (by decide) (by decide) (by decide)

/-- The event trace `_ssh` produces over `n` consecutive failed attempts
starting at attempt number `attempt`: each failed attempt runs the subprocess
and then sleeps. -/
def failTrace (delay : Nat) : Nat → Nat → List SshEvent
  | 0, _ => []
  | n + 1, attempt => .run attempt :: .sleepFor delay :: failTrace delay n (attempt + 1)

/-- Persistent failure: the loop walks through all remaining attempts,
sleeping after each one, and ends with the error built from the last result. -/
theorem sshGo_all_fail (results : Nat → ProcResult) (retries delay : Nat)
    (hfail : ∀ n, (results n).returncode ≠ 0) :
    ∀ (remaining attempt : Nat),
      sshGo results retries delay remaining attempt =
        (failTrace delay remaining attempt,
         .error (sshFailMsg retries (results retries))) := by
  intro remaining
  induction remaining with
  | zero => intro attempt; rfl
  | succ n ih =>
    intro attempt
    simp only [sshGo, failTrace, if_neg (hfail attempt), ih (attempt + 1)]

/-- First success at attempt `k`: the loop runs (and sleeps after) the failed
attempts before `k`, then returns at `k` with no further events. -/
theorem sshGo_first_success (results : Nat → ProcResult) (retries delay k : Nat)
    (hk : (results k).returncode = 0) :
    ∀ (remaining attempt : Nat),
      (∀ j, attempt ≤ j → j < k → (results j).returncode ≠ 0) →
      attempt ≤ k → k < attempt + remaining →
      sshGo results retries delay remaining attempt =
        (failTrace delay (k - attempt) attempt ++ [.run k], .ok ()) := by
  intro remaining
  induction remaining with
  | zero => intro attempt _ hle hlt; omega
  | succ n ih =>
    intro attempt hfail hle hlt
    by_cases heq : attempt = k
    · subst heq
      simp [sshGo, hk, failTrace]
    · have hlt' : attempt < k := lt_of_le_of_ne hle heq
      have hne : (results attempt).returncode ≠ 0 :=
        hfail attempt (Nat.le_refl attempt) hlt'
      have hrec := ih (attempt + 1)
        (fun j hj₁ hj₂ => hfail j (Nat.le_of_succ_le hj₁) hj₂)
        hlt' (by omega)
      have hsub : k - attempt = (k - (attempt + 1)) + 1 := by omega
      simp only [sshGo, if_neg hne, hrec, hsub, failTrace, List.cons_append]

/-- C4 counterexample: with 2 attempts that both fail and a 5-second delay,
`_ssh` sleeps after the final attempt too — the trace ends in a sleep and
holds 2 sleeps, not 1 — refuting "sleeping only between attempts" at this
concrete input. -/
theorem c4_counterexample :
    ssh_run (fun _ => { returncode := 1, stdout := "", stderr := "conn refused" }) 2 5 =
      ([.run 1, .sleepFor 5, .run 2, .sleepFor 5],
       .error "SSH failed after 2 attempts: conn refused")
    ∧ (ssh_run (fun _ => { returncode := 1, stdout := "", stderr := "conn refused" }) 2 5).1.count
        (.sleepFor 5) = 2 := by
  refine ⟨rfl, by decide⟩

/-- C4 amended: on persistent failure the loop makes exactly `retries`
attempts, sleeping `delay` after every failed attempt — including the last
one, just before raising — and the raised error carries the last attempt's
stderr (falling back to its stdout); on the first successful attempt `k` it
returns at once, with failed attempts (each followed by one sleep) only
before `k` and no event after `.run k`. -/
theorem c4_ssh_retry_trace (results : Nat → ProcResult) (retries delay k : Nat)
    (hret : 1 ≤ retries) :
    ((∀ n, (results n).returncode ≠ 0) →
      ssh_run results retries delay =
        (failTrace delay retries 1, .error (sshFailMsg retries (results retries))))
    ∧ ((∀ j, 1 ≤ j → j < k → (results j).returncode ≠ 0) →
        (results k).returncode = 0 → 1 ≤ k → k ≤ retries →
        ssh_run results retries delay =
          (failTrace delay (k - 1) 1 ++ [.run k], .ok ())) := by
  constructor
  · intro hfail
    exact sshGo_all_fail results retries delay hfail retries 1
  · intro hfail hk hk1 hkr
    exact sshGo_first_success results retries delay k hk retries 1 hfail hk1 (by omega)

/-- Witness for C4's amended theorem: all-fail with 2 attempts gives the
two-run/two-sleep trace carrying the stdout fallback text; success at the
second of 5 allowed attempts stops after `.run 2`. -/
theorem c4_ssh_retry_trace_witness :
    ((∀ n, (((fun _ => { returncode := 1, stdout := "boot log", stderr := "" }) :
        Nat → ProcResult) n).returncode ≠ 0)
      ∧ ssh_run (fun _ => { returncode := 1, stdout := "boot log", stderr := "" }) 2 3 =
          (failTrace 3 2 1, .error "SSH failed after 2 attempts: boot log"))
    ∧ (ssh_run
          (fun n => if n = 2 then { returncode := 0, stdout := "", stderr := "" }
                    else { returncode := 1, stdout := "", stderr := "e" }) 5 3 =
        (failTrace 3 1 1 ++ [.run 2], .ok ())) := by
  constructor
  · refine ⟨fun _ => Int.one_ne_zero, ?_⟩
    have h := (c4_ssh_retry_trace
      (fun _ => { returncode := 1, stdout := "boot log", stderr := "" }) 2 3 0
      (by decide)).1 (fun _ => Int.one_ne_zero)
    simpa [sshFailMsg, strOrElse] using h
  · have h := (c4_ssh_retry_trace
      (fun n => if n = 2 then { returncode := 0, stdout := "", stderr := "" }
                else { returncode := 1, stdout := "", stderr := "e" }) 5 3 2
      (by decide)).2
      (by
        intro j hj₁ hj₂
        have : j ≠ 2 := by omega
        simp [this])
      (by decide) (by decide) (by decide)
    simpa using h

/-- When every `_ssh` call returns normally, the sequential runner visits the
whole command list. -/
theorem runSeq_all_ok (ssh : String → Except String Unit)
    (hok : ∀ c, ssh c = .ok ()) :
    ∀ cmds : List String, runSeq ssh cmds = (cmds, .ok ()) := by
  intro cmds
  induction cmds with
  | nil => rfl
  | cons c rest ih => simp [runSeq, hok c, ih]

/-- C5 counterexample: a preset whose `HF_TOKEN` value stays a `$\x7b...\x7d`
placeholder after expansion makes `_bootstrap_remote` raise the configuration
error only after all six installation commands were already invoked over SSH
— six remote invocations precede the error, refuting the claim at this
concrete input. -/
theorem c5_counterexample :
    bootstrap_remote (fun _ => .ok ()) (fun s => s)
        { name := "image-server", instance_type := "gpu_1x_a10",
          docker_image := "intelligensi/image-server",
          env := [("HF_TOKEN", some "$\x7bHF_TOKEN\x7d")], port := 8080,
          health_path := "/health", ssh_key_name := some "deploy-key",
          ssh_private_key_path := some "/home/u/.ssh/id_ed25519",
          ssh_username := "ubuntu" } =
      (bootstrapInstallCommands,
       .error (unresolvedMsg "HF_TOKEN" "$\x7bHF_TOKEN\x7d"))
    ∧ bootstrapInstallCommands.length = 6 := by
  exact ⟨rfl, rfl⟩

/-- C5 amended: an unresolved placeholder is a hard configuration error and
it is raised before the docker `pull`/`run` command — the only remote command
consuming the environment — executes; but it is raised only after the six
docker-installation commands have already run remotely, not before any remote
command. -/
theorem c5_env_error_after_install (ssh : String → Except String Unit)
    (expand : String → String) (preset : Preset) (e : String)
    (hkey : optStrTruthy preset.ssh_private_key_path = true)
    (hok : ∀ c, ssh c = .ok ())
    (henv : build_env_flags expand preset.env = .error e) :
    bootstrap_remote ssh expand preset = (bootstrapInstallCommands, .error e) := by
  simp [bootstrap_remote, hkey, runSeq_all_ok ssh hok, henv]

/-- Witness for C5's amended theorem at a concrete unresolved preset. -/
theorem c5_env_error_after_install_witness :
    optStrTruthy (Preset.ssh_private_key_path
        { name := "image-server", instance_type := "gpu_1x_a10",
          docker_image := "intelligensi/image-server",
          env := [("SUPABASE_KEY", some "$\x7bSUPABASE_KEY\x7d")], port := 8080,
          health_path := "/health", ssh_key_name := some "deploy-key",
          ssh_private_key_path := some "/home/u/.ssh/id_ed25519",
          ssh_username := "ubuntu" }) = true
    ∧ build_env_flags (fun s => s)
        [("SUPABASE_KEY", some "$\x7bSUPABASE_KEY\x7d")] =
          .error (unresolvedMsg "SUPABASE_KEY" "$\x7bSUPABASE_KEY\x7d")
    ∧ bootstrap_remote (fun _ => .ok ()) (fun s => s)
        { name := "image-server", instance_type := "gpu_1x_a10",
          docker_image := "intelligensi/image-server",
          env := [("SUPABASE_KEY", some "$\x7bSUPABASE_KEY\x7d")], port := 8080,
          health_path := "/health", ssh_key_name := some "deploy-key",
          ssh_private_key_path := some "/home/u/.ssh/id_ed25519",
          ssh_username := "ubuntu" } =
      (bootstrapInstallCommands,
       .error (unresolvedMsg "SUPABASE_KEY" "$\x7bSUPABASE_KEY\x7d")) :=
  ⟨rfl, rfl,
   c5_env_error_after_install (fun _ => .ok ()) (fun s => s)
     { name := "image-server", instance_type := "gpu_1x_a10",
       docker_image := "intelligensi/image-server",
       env := [("SUPABASE_KEY", some "$\x7bSUPABASE_KEY\x7d")], port := 8080,
       health_path := "/health", ssh_key_name := some "deploy-key",
       ssh_private_key_path := some "/home/u/.ssh/id_ed25519",
       ssh_username := "ubuntu" }
     (unresolvedMsg "SUPABASE_KEY" "$\x7bSUPABASE_KEY\x7d")
     rfl (fun _ => rfl) rfl⟩

/-- C6 counterexample: the provider reports the instance as already gone
(`LambdaAPIError` 404 on delete), and `shutdown_preset` raises a
`DeploymentError` and keeps the deployment record — it neither treats the
error as success nor removes the record, refuting the claim at this concrete
input. -/
theorem c6_counterexample :
    shutdown_preset (.error "Lambda API error 404: instance not found")
        [("image-server",
          { preset := "image-server", instance_id := "i-123", ip := "1.2.3.4" })]
        "image-server" =
      ([("image-server",
         { preset := "image-server", instance_id := "i-123", ip := "1.2.3.4" })],
       .error "Lambda API error 404: instance not found") := rfl

/-- C6 amended: `shutdown_preset` re-raises any provider error from the
delete call — including one for an already-gone instance — as a
`DeploymentError` and retains the deployment record; the record is removed
only when delete succeeds.  (Only a preset with no record at all is skipped
silently.) -/
theorem c6_shutdown_error_retains_record
    (states : List (String × DeploymentState)) (name : String)
    (ds : DeploymentState) (e : String) (h : lookupOpt states name = some ds) :
    shutdown_preset (.error e) states name = (states, .error e)
    ∧ shutdown_preset (.ok ()) states name = (removeKey states name, .ok ()) := by
  simp [shutdown_preset, h]

/-- Witness for C6's amended theorem at a concrete one-record state map. -/
theorem c6_shutdown_error_retains_record_witness :
    lookupOpt
        ([("image-server",
          { preset := "image-server", instance_id := "i-123", ip := "1.2.3.4" })] :
          List (String × DeploymentState))
        "image-server" =
      some { preset := "image-server", instance_id := "i-123", ip := "1.2.3.4" }
    ∧ (shutdown_preset (.error "Unable to reach Lambda API: timeout")
          [("image-server",
            { preset := "image-server", instance_id := "i-123", ip := "1.2.3.4" })]
          "image-server" =
        ([("image-server",
           { preset := "image-server", instance_id := "i-123", ip := "1.2.3.4" })],
         .error "Unable to reach Lambda API: timeout")
      ∧ shutdown_preset (.ok ())
          [("image-server",
            { preset := "image-server", instance_id := "i-123", ip := "1.2.3.4" })]
          "image-server" =
        (removeKey
          [("image-server",
            { preset := "image-server", instance_id := "i-123", ip := "1.2.3.4" })]
          "image-server", .ok ())) :=
  ⟨rfl,
   c6_shutdown_error_retains_record
     [("image-server",
       { preset := "image-server", instance_id := "i-123", ip := "1.2.3.4" })]
     "image-server"
     { preset := "image-server", instance_id := "i-123", ip := "1.2.3.4" }
     "Unable to reach Lambda API: timeout" rfl⟩

/-- Appending a fresh key to an association list makes it found. -/
theorem lookupOpt_append_self {α : Type} (l : List (String × α)) (k : String)
    (v : α) (h : lookupOpt l k = none) :
    lookupOpt (l ++ [(k, v)]) k = some v := by
  induction l with
  | nil => simp [lookupOpt]
  | cons p rest ih =>
    by_cases hk : p.1 = k
    · simp [lookupOpt, hk] at h
    · simp only [lookupOpt, hk, if_neg hk, List.cons_append] at h ⊢
      exact ih h

/-- C8: once provisioning yields an instance with an address, `deploy_preset`
writes the deployment record (preset name, instance id, address) to the state
map, and only then runs the remote bootstrap; when the bootstrap fails, the
call raises but the persisted record is retained unchanged — no rollback. -/
theorem c8_record_persisted_before_bootstrap (hfToken : Option String)
    (states : List (String × DeploymentState)) (name : String)
    (created inst : Instance) (e : String)
    (hhf : optStrTruthy hfToken = true)
    (hnew : lookupOpt states name = none)
    (hip : ipTruthy inst = true) :
    deploy_preset hfToken states name (.ok created) (.ok inst) (.error e) =
      (states ++
        [(name, { preset := name, instance_id := inst.id, ip := inst.ip.getD "" })],
       [.persistRecord, .remoteBootstrap], .error e)
    ∧ lookupOpt
        (states ++
          [(name, { preset := name, instance_id := inst.id, ip := inst.ip.getD "" })])
        name =
      some { preset := name, instance_id := inst.id, ip := inst.ip.getD "" } := by
  refine ⟨?_, lookupOpt_append_self states name _ hnew⟩
  simp [deploy_preset, hhf, hnew, hip]

/-- Witness for C8 at a concrete fresh deployment whose bootstrap fails. -/
theorem c8_record_persisted_before_bootstrap_witness :
    optStrTruthy (some "hf_token_value") = true
    ∧ lookupOpt ([] : List (String × DeploymentState)) "image-server" = none
    ∧ ipTruthy { id := "i-123", ip := some "1.2.3.4", status := "active" } = true
    ∧ deploy_preset (some "hf_token_value") [] "image-server"
        (.ok { id := "i-123", ip := none, status := "launching" })
        (.ok { id := "i-123", ip := some "1.2.3.4", status := "active" })
        (.error "SSH failed after 20 attempts: conn refused") =
      ([("image-server",
         { preset := "image-server", instance_id := "i-123", ip := "1.2.3.4" })],
       [.persistRecord, .remoteBootstrap],
       .error "SSH failed after 20 attempts: conn refused") := by
  refine ⟨rfl, rfl, rfl, ?_⟩
  have h := (c8_record_persisted_before_bootstrap (some "hf_token_value") []
    "image-server" { id := "i-123", ip := none, status := "launching" }
    { id := "i-123", ip := some "1.2.3.4", status := "active" }
    "SSH failed after 20 attempts: conn refused" rfl rfl rfl).1
  simpa using h

/-- C10: `None`-valued entries are silently omitted — the builder behaves
exactly as it does on the map with those entries removed, so they yield no
flag and can never trigger the unresolved-placeholder error — and, when no
non-`None` value stays placeholder-shaped after expansion, every non-`None`
entry yields exactly one `-e KEY='expandedValue'` flag, in order. -/
theorem c10_env_flags_none_skipped (expand : String → String)
    (env : List (String × Option String)) :
    build_env_flags expand env =
      build_env_flags expand (env.filter (fun kv => kv.2.isSome))
    ∧ ((∀ k v, (k, some v) ∈ env → unresolvedShape (expand v) = false) →
       build_env_flags expand env =
         .ok (String.intercalate " "
           (env.filterMap (fun kv => kv.2.map (fun v => envFlag kv.1 (expand v)))))) := by
  constructor
  · have : envFlagParts expand env =
        envFlagParts expand (env.filter (fun kv => kv.2.isSome)) := by
      induction env with
      | nil => rfl
      | cons kv rest ih =>
        match kv with
        | (k, none) => simpa [envFlagParts, List.filter] using ih
        | (k, some v) => simp [envFlagParts, List.filter, ih]
    simp [build_env_flags, this]
  · intro hres
    have : envFlagParts expand env =
        .ok (env.filterMap (fun kv => kv.2.map (fun v => envFlag kv.1 (expand v)))) := by
      induction env with
      | nil => rfl
      | cons kv rest ih =>
        match kv with
        | (k, none) =>
          simpa [envFlagParts, List.filterMap_cons] using
            ih (fun k' v' h => hres k' v' (List.mem_cons_of_mem _ h))
        | (k, some v) =>
          have hv : unresolvedShape (expand v) = false :=
            hres k v (List.mem_cons_self _ _)
          simp [envFlagParts, hv, List.filterMap_cons,
            ih (fun k' v' h => hres k' v' (List.mem_cons_of_mem _ h))]
    simp [build_env_flags, this]

/-- Witness for C10: a map with a `None` entry between two resolvable entries
behaves like the filtered map and yields exactly one flag per non-`None`
entry. -/
theorem c10_env_flags_none_skipped_witness :
    (∀ k v, (k, some v) ∈
        ([("HF_TOKEN", some "hf_x"), ("DEBUG", none), ("PORT", some "8080")] :
          List (String × Option String)) →
      unresolvedShape ((fun s => s) v) = false)
    ∧ build_env_flags (fun s => s)
        [("HF_TOKEN", some "hf_x"), ("DEBUG", none), ("PORT", some "8080")] =
      build_env_flags (fun s => s)
        (([("HF_TOKEN", some "hf_x"), ("DEBUG", none), ("PORT", some "8080")] :
          List (String × Option String)).filter (fun kv => kv.2.isSome))
    ∧ build_env_flags (fun s => s)
        [("HF_TOKEN", some "hf_x"), ("DEBUG", none), ("PORT", some "8080")] =
      .ok "-e HF_TOKEN=\x27hf_x\x27 -e PORT=\x278080\x27" := by
  have hres : ∀ k v, (k, some v) ∈
      ([("HF_TOKEN", some "hf_x"), ("DEBUG", none), ("PORT", some "8080")] :
        List (String × Option String)) →
      unresolvedShape ((fun s => s) v) = false := by
    intro k v h
    simp at h
    rcases h with ⟨hk, hv⟩ | ⟨hk, hv⟩ <;> subst hv <;> decide
  refine ⟨hres, (c10_env_flags_none_skipped (fun s => s) _).1, ?_⟩
  have h := (c10_env_flags_none_skipped (fun s => s)
    [("HF_TOKEN", some "hf_x"), ("DEBUG", none), ("PORT", some "8080")]).2 hres
  simpa using h

end IntelligensiDeploy
